import Mathlib

/-!
Verification of the DevTube backend core against its specification.

The development shallowly embeds the controllers of the repository
(like.controller.js, subscription.controller.js, the comment controller,
user.controller.js, the video-list controller in dashboard.controller.js and
the cache middleware) over an explicit document store.  Mongo collections are
lists of records, controller handlers are pure functions threading the store,
and thrown errors are values of an explicit error type that the global error
middleware (errors.middleware.js) maps to an HTTP status.
-/

namespace DevTube

/-- Document ids; Mongo ObjectIds are modelled as naturals. -/
abbrev ObjId := Nat

/-- Moderation states of a comment (comment.models.js). -/
inductive ModStatus where
  | pending
  | approved
  | rejected
  | flagged
deriving DecidableEq, Repr

/-- A decoded JWT as seen by jwt.verify: the user id claim, a freshness nonce
distinguishing separately issued tokens, and whether signature and expiry
verification succeed. -/
structure Jwt where
  uid : ObjId
  nonce : Nat
  sigValid : Bool
deriving DecidableEq, Repr

/-- A user document (public fields plus the stored refresh token). -/
structure UserDoc where
  id : ObjId
  username : String
  fullName : String
  refreshToken : Option Jwt := none
deriving DecidableEq, Repr

/-- A video document, restricted to the fields the verified controllers read. -/
structure VideoDoc where
  id : ObjId
  owner : ObjId
  isPublished : Bool
  title : String := ""
  description : String := ""
  views : Nat := 0
  duration : Nat := 0
  createdAt : Nat := 0
  updatedAt : Nat := 0
deriving DecidableEq, Repr

/-- A comment document (comment.models.js). -/
structure CommentDoc where
  id : ObjId
  content : String
  video : ObjId
  owner : ObjId
  isDeleted : Bool := false
  moderationStatus : ModStatus := .approved
  createdAt : Nat := 0
deriving DecidableEq, Repr

/-- A like document: one row per (actor, target), the target being a
discriminated reference to a video, comment or tweet. -/
structure LikeDoc where
  id : ObjId
  likedBy : ObjId
  video : Option ObjId := none
  comment : Option ObjId := none
  tweet : Option ObjId := none
  resourceType : Option String := none
deriving DecidableEq, Repr

/-- A subscription document: subscriber follows channel. -/
structure SubDoc where
  id : ObjId
  subscriber : ObjId
  channel : ObjId
deriving DecidableEq, Repr

/-- The document store. -/
structure Db where
  users : List UserDoc := []
  videos : List VideoDoc := []
  comments : List CommentDoc := []
  likes : List LikeDoc := []
  subs : List SubDoc := []
deriving DecidableEq, Repr

/-- Errors as they travel through asyncHandler to the global error middleware:
an ApiError carrying its HTTP status, a Mongo duplicate-key error (code 11000,
no statusCode field), or a JavaScript TypeError (such as calling a method that
does not exist). -/
inductive JsError where
  | api (statusCode : Nat) (message : String)
  | dupKey
  | typeErr (message : String)
deriving DecidableEq, Repr

/-- The status the global error middleware (errors.middleware.js) responds
with: an ApiError keeps its statusCode, everything else is wrapped with
statusCode or-else 500. -/
def errStatus : JsError → Nat
  | .api s _ => s
  | .dupKey => 500
  | .typeErr _ => 500

/-- Outcome of a handler body: a response value or a thrown error. -/
inductive Outcome (α : Type) where
  | ok (val : α)
  | err (e : JsError)
deriving DecidableEq, Repr

/-- HTTP status of an outcome, given how a success value carries its status. -/
def Outcome.httpStatus (statusOf : α → Nat) : Outcome α → Nat
  | .ok v => statusOf v
  | .err e => errStatus e

/-- User.findById. -/
def userFind (db : Db) (uid : ObjId) : Option UserDoc :=
  db.users.find? (fun u => u.id == uid)

/-- Video.findById. -/
def videoFind (db : Db) (vid : ObjId) : Option VideoDoc :=
  db.videos.find? (fun v => v.id == vid)

/-- verifyResourceExists of like.controller.js for the video kind: the video
must exist and be published. -/
def verifyVideoResource (db : Db) (vid : ObjId) : Option JsError :=
  match videoFind db vid with
  | none => some (.api 404 "Video not found")
  | some v => if v.isPublished then none else some (.api 400 "Cannot like unpublished video")

/-- Like.findOne for likedBy and video equality (toggleVideoLike). -/
def likeFindOne (db : Db) (uid vid : ObjId) : Option LikeDoc :=
  db.likes.find? (fun r => r.likedBy == uid && r.video == some vid)

/-- Number of like rows for the (actor, video) pair. -/
def countVideoLikesPair (db : Db) (uid vid : ObjId) : Nat :=
  (db.likes.filter (fun r => r.likedBy == uid && r.video == some vid)).length

/-- Modelled from the spec: like.models.js is not under src.  Per the spec
data model the pair (actor, target) is unique, so Like.create on a store that
already holds a row for the pair fails with a duplicate-key error (code
11000) and writes nothing; otherwise it appends one new row. -/
def likeCreate (db : Db) (freshId : Nat) (uid vid : ObjId) : Outcome LikeDoc × Db :=
  if db.likes.any (fun r => r.likedBy == uid && r.video == some vid) then
    (.err .dupKey, db)
  else
    let row : LikeDoc := { id := freshId, likedBy := uid, video := some vid }
    (.ok row, { db with likes := db.likes ++ [row] })

/-- Like.findByIdAndDelete. -/
def likeDeleteById (db : Db) (rid : ObjId) : Db :=
  { db with likes := db.likes.filter (fun r => r.id != rid) }

/-- Response body of toggleVideoLike: ApiResponse.ok carries 200 on unlike,
ApiResponse.created carries 201 on like, with the isLiked flag. -/
structure LikeToggleResp where
  statusCode : Nat
  isLiked : Bool
  videoId : ObjId
deriving DecidableEq, Repr

/-- toggleVideoLike of like.controller.js.  The handler reads (findOne) on one
snapshot and writes (create or delete) on a second one; a sequential call uses
the same store for both, while a lost concurrent race is the case where the
insert-time store already holds the row the read missed.  There is no catch
around Like.create, so its duplicate-key error propagates to the global error
middleware. -/
def toggleVideoLike (dbFind dbIns : Db) (userId videoId : ObjId) (freshId : Nat) :
    Outcome LikeToggleResp × Db :=
  match verifyVideoResource dbFind videoId with
  | some e => (.err e, dbIns)
  | none =>
    match likeFindOne dbFind userId videoId with
    | some existing =>
        (.ok { statusCode := 200, isLiked := false, videoId := videoId },
         likeDeleteById dbIns existing.id)
    | none =>
        match likeCreate dbIns freshId userId videoId with
        | (.ok _, db2) => (.ok { statusCode := 201, isLiked := true, videoId := videoId }, db2)
        | (.err e, db2) => (.err e, db2)

/-- Subscription.findOne for the (subscriber, channel) pair. -/
def subFindOne (db : Db) (uid cid : ObjId) : Option SubDoc :=
  db.subs.find? (fun r => r.subscriber == uid && r.channel == cid)

/-- Number of subscription rows for the (subscriber, channel) pair. -/
def countSubsPair (db : Db) (uid cid : ObjId) : Nat :=
  (db.subs.filter (fun r => r.subscriber == uid && r.channel == cid)).length

/-- Modelled from the spec: subscription.models.js is not under src.  Per the
spec data model (subscriber, channel) is unique, so Subscription.create fails
with a duplicate-key error when a row for the pair already exists, writing
nothing; otherwise it appends one new row. -/
def subCreate (db : Db) (freshId : Nat) (uid cid : ObjId) : Outcome SubDoc × Db :=
  if db.subs.any (fun r => r.subscriber == uid && r.channel == cid) then
    (.err .dupKey, db)
  else
    let row : SubDoc := { id := freshId, subscriber := uid, channel := cid }
    (.ok row, { db with subs := db.subs ++ [row] })

/-- Subscription.findByIdAndDelete. -/
def subDeleteById (db : Db) (rid : ObjId) : Db :=
  { db with subs := db.subs.filter (fun r => r.id != rid) }

/-- Response body the subscription toggle is documented to send: 200 with an
action string.  The handler never actually builds it, see toggleSubscription. -/
structure SubToggleResp where
  statusCode : Nat
  action : String
deriving DecidableEq, Repr

/-- The error that escapes every non-duplicate-key failure path of
subscription.controller.js: the catch block calls ApiError.internalServerError,
a static method that does not exist on the ApiError class of utils/ApiError.js,
so a TypeError is thrown from inside the catch and reaches the global error
middleware, which answers 500. -/
def subInternalCrash : JsError :=
  .typeErr "ApiError.internalServerError is not a function"

/-- toggleSubscription of subscription.controller.js, read snapshot and
insert-time snapshot separated as in toggleVideoLike.  Faithful to the source:

* the channel-id validation, the authentication check and the self-subscription
  check run before the try block, so they throw ApiError values directly and
  touch no state;
* a missing channel or subscriber throws ApiError.notFound inside the try
  block; the catch sees a code other than 11000 and calls the nonexistent
  ApiError.internalServerError, so the path degenerates to subInternalCrash;
* a duplicate-key error from Subscription.create is caught and rethrown as
  ApiError.conflict 409;
* on the success paths the row is first created or deleted, then the handler
  calls ApiResponse.success, a static method that does not exist on the
  ApiResponse class of utils/ApiResponse.js; the TypeError is caught and the
  catch again degenerates to subInternalCrash.  The write persists even though
  the response is a 500. -/
def toggleSubscription (dbFind dbIns : Db) (channelId userId : Option ObjId)
    (freshId : Nat) : Outcome SubToggleResp × Db :=
  match channelId with
  | none => (.err (.api 400 "Invalid Channel ID"), dbIns)
  | some cid =>
    match userId with
    | none => (.err (.api 401 "Authentication required"), dbIns)
    | some uid =>
      if cid == uid then
        (.err (.api 400 "You cannot subscribe to your own channel"), dbIns)
      else if (userFind dbFind cid).isNone || (userFind dbFind uid).isNone then
        (.err subInternalCrash, dbIns)
      else
        match subFindOne dbFind uid cid with
        | some existing =>
            (.err subInternalCrash, subDeleteById dbIns existing.id)
        | none =>
            match subCreate dbIns freshId uid cid with
            | (.err _, db2) =>
                (.err (.api 409 "Subscription operation in progress, please try again"), db2)
            | (.ok _, db2) => (.err subInternalCrash, db2)

/-- Math.ceil(total / limit) on naturals, for limit at least 1. -/
def ceilDivJs (total limit : Nat) : Nat :=
  (total + limit - 1) / limit

/-- The pagination object getVideoComments builds from currentPage, the
countDocuments total and the limit. -/
structure GVCPagination where
  currentPage : Nat
  totalPages : Nat
  totalComments : Nat
  hasNextPage : Bool
  hasPrevPage : Bool
  nextPage : Option Nat
  prevPage : Option Nat
deriving DecidableEq, Repr

/-- The pagination metadata computation shared by the list endpoints:
totalPages is Math.ceil(total / limit), hasNextPage is page < totalPages and
hasPrevPage is page > 1, with nextPage and prevPage derived from them. -/
def mkPagination (page limit total : Nat) : GVCPagination :=
  let totalPages := ceilDivJs total limit
  let hasNextPage := decide (page < totalPages)
  let hasPrevPage := decide (1 < page)
  { currentPage := page
    totalPages := totalPages
    totalComments := total
    hasNextPage := hasNextPage
    hasPrevPage := hasPrevPage
    nextPage := if hasNextPage then some (page + 1) else none
    prevPage := if hasPrevPage then some (page - 1) else none }

/-- Sort keys accepted by the comment pagination schema. -/
inductive SortKey where
  | newest
  | oldest
  | popular
deriving DecidableEq, Repr

/-- One element of the comment aggregation output, after the owner lookup and
the computed fields.  The final projection of the pipeline exposes the public
comment fields plus the computed ones; the underlying document is kept here so
that statements can speak about which comments appear. -/
structure EComment where
  comment : CommentDoc
  ownerName : String
  likesCount : Nat
  isLikedByUser : Bool
  isOwner : Bool
deriving DecidableEq, Repr

/-- The like rows the comment pipeline counts: rows targeting the comment with
resourceType Comment. -/
def commentLikes (db : Db) (cid : ObjId) : List LikeDoc :=
  db.likes.filter (fun r => r.comment == some cid && r.resourceType == some "Comment")

/-- The addFields stage of the comment pipeline for one comment joined with
its owner. -/
def enrichComment (db : Db) (viewer : Option ObjId) (c : CommentDoc) (o : UserDoc) :
    EComment :=
  let likes := commentLikes db c.id
  { comment := c
    ownerName := o.username
    likesCount := likes.length
    isLikedByUser :=
      match viewer with
      | some w => likes.any (fun r => r.likedBy == w)
      | none => false
    isOwner :=
      match viewer with
      | some w => o.id == w
      | none => false }

/-- The sort stage ordering: newest is createdAt descending, oldest ascending,
popular is likesCount descending with createdAt descending as tie-break. -/
def sortLeB (k : SortKey) (a b : EComment) : Bool :=
  match k with
  | .newest => decide (b.comment.createdAt ≤ a.comment.createdAt)
  | .oldest => decide (a.comment.createdAt ≤ b.comment.createdAt)
  | .popular =>
      decide (b.likesCount < a.likesCount) ||
      (b.likesCount == a.likesCount && decide (b.comment.createdAt ≤ a.comment.createdAt))

/-- The sort stage of the comment pipeline. -/
def sortComments (k : SortKey) (l : List EComment) : List EComment :=
  l.insertionSort (fun a b => sortLeB k a b = true)

/-- buildCommentAggregation of the comment controller, composed with the
pre-aggregate hook of comment.models.js.  The pipeline built by the controller
has no match stage mentioning isDeleted, so the hook prepends the filter that
drops soft-deleted comments; no stage filters on moderationStatus.  The owner
lookup with a strict unwind drops comments whose owner no longer exists. -/
def buildCommentAggregation (db : Db) (videoId : ObjId) (viewer : Option ObjId)
    (k : SortKey) (skip limit : Nat) : List EComment :=
  let hooked := db.comments.filter (fun c => !c.isDeleted)
  let matched := hooked.filter (fun c => c.video == videoId)
  let enriched := matched.filterMap
    (fun c => (userFind db c.owner).map (enrichComment db viewer c))
  let sorted := sortComments k enriched
  (sorted.drop skip).take limit

/-- Comment.countDocuments for the video.  countDocuments is not a find-family
query, so the pre-find hook of comment.models.js does not rewrite it and
soft-deleted comments are included in the count. -/
def countVideoComments (db : Db) (videoId : ObjId) : Nat :=
  (db.comments.filter (fun c => c.video == videoId)).length

/-- Response body of getVideoComments. -/
structure GVCResp where
  statusCode : Nat
  comments : List EComment
  pagination : GVCPagination
deriving DecidableEq, Repr

/-- getVideoComments of the comment controller.  The zod pagination schema
guarantees page at least 1 and limit between 1 and 50 before the handler body
runs; verifyVideoExists requires an existing published video.  The skip is
(page - 1) * limit. -/
def getVideoComments (db : Db) (videoId : ObjId) (viewer : Option ObjId)
    (page limit : Nat) (k : SortKey) : Outcome GVCResp :=
  match videoFind db videoId with
  | none => .err (.api 404 "Video not found")
  | some v =>
    if !v.isPublished then .err (.api 400 "Cannot comment on unpublished video")
    else
      let skip := (page - 1) * limit
      let comments := buildCommentAggregation db videoId viewer k skip limit
      let total := countVideoComments db videoId
      .ok { statusCode := 200, comments := comments, pagination := mkPagination page limit total }

/-- Response type of getUserChannelSubscribers.  The handler never produces
it: both the in-try failure path (checkUserExists throwing notFound) and the
success path (the nonexistent ApiResponse.success) end in the catch block
whose nonexistent ApiError.internalServerError throws a TypeError that the
global error middleware answers with 500. -/
structure SubscribersResp where
  statusCode : Nat
deriving DecidableEq, Repr

/-- getUserChannelSubscribers of subscription.controller.js.  An invalid or
missing channel id throws badRequest before the try block; every other path
runs the query and then crashes while responding, so the handler always ends
in subInternalCrash for a valid channel id. -/
def getUserChannelSubscribers (db : Db) (channelId : Option ObjId)
    (page limit : Nat) : Outcome SubscribersResp :=
  match channelId with
  | none => .err (.api 400 "Invalid Channel ID")
  | some _ => .err subInternalCrash

/-- Sort fields getAllVideos allows; unrecognized values fall back to
createdAt. -/
inductive VSortField where
  | createdAt
  | views
  | duration
  | title
  | updatedAt
deriving DecidableEq, Repr

/-- Ordering used by the sort stage of getAllVideos: ascending when sortType
is asc, otherwise descending. -/
def videoLeB (f : VSortField) (asc : Bool) (a b : VideoDoc) : Bool :=
  let le : Bool :=
    match f with
    | .createdAt => decide (a.createdAt ≤ b.createdAt)
    | .views => decide (a.views ≤ b.views)
    | .duration => decide (a.duration ≤ b.duration)
    | .title => decide (a.title ≤ b.title)
    | .updatedAt => decide (a.updatedAt ≤ b.updatedAt)
  if asc then le else
    match f with
    | .createdAt => decide (b.createdAt ≤ a.createdAt)
    | .views => decide (b.views ≤ a.views)
    | .duration => decide (b.duration ≤ a.duration)
    | .title => decide (b.title ≤ a.title)
    | .updatedAt => decide (b.updatedAt ≤ a.updatedAt)

/-- Whether the first character list starts the second. -/
def leadsWith : List Char → List Char → Bool
  | [], _ => true
  | _ :: _, [] => false
  | a :: as, b :: bs => a == b && leadsWith as bs

/-- Whether the first character list occurs contiguously in the second. -/
def containsSeq (p : List Char) : List Char → Bool
  | [] => p.isEmpty
  | c :: tl => leadsWith p (c :: tl) || containsSeq p tl

/-- Case-insensitive regex match of the search query against a field, for
queries without regex metacharacters: substring containment after lowering. -/
def matchesQuery (q : String) (s : String) : Bool :=
  containsSeq q.toLower.toList s.toLower.toList

/-- The match stage of getAllVideos: published videos, optionally restricted
to a search query over title or description and to an owner. -/
def videoMatches (q : Option String) (ownerId : Option ObjId) (v : VideoDoc) : Bool :=
  v.isPublished &&
  (match q with
   | none => true
   | some qs => matchesQuery qs v.title || matchesQuery qs v.description) &&
  (match ownerId with
   | none => true
   | some o => v.owner == o)

/-- The matched, owner-joined video list of getAllVideos before sorting: the
strict unwind on ownerDetails drops videos whose owner no longer exists. -/
def allVideosMatched (db : Db) (q : Option String) (ownerId : Option ObjId) :
    List VideoDoc :=
  (db.videos.filter (videoMatches q ownerId)).filter
    (fun v => (userFind db v.owner).isSome)

/-- Pagination object of the getAllVideos response.  When the requested page
holds no videos the handler builds this object itself with totalPages and
totalVideos hard-coded to 0; otherwise the aggregate-paginate metadata carries
the true values. -/
structure GAVPagination where
  currentPage : Nat
  totalPages : Nat
  totalVideos : Nat
deriving DecidableEq, Repr

/-- Response body of getAllVideos. -/
structure GAVResp where
  statusCode : Nat
  videos : List VideoDoc
  pagination : GAVPagination
deriving DecidableEq, Repr

/-- The page slice of aggregatePaginate in getAllVideos: the sorted matches,
skipping (page - 1) * limit documents and taking limit of them. -/
def gavDocs (db : Db) (q : Option String) (ownerId : Option ObjId)
    (f : VSortField) (asc : Bool) (page limit : Nat) : List VideoDoc :=
  let sorted := (allVideosMatched db q ownerId).insertionSort
    (fun a b => videoLeB f asc a b = true)
  (sorted.drop ((page - 1) * limit)).take limit

/-- getAllVideos of the video controller (second file of
dashboard.controller.js).  Page is clamped to at least 1 and limit to the
range 1..50 from the raw query values, and totalVideos/totalPages come from
aggregatePaginate.  When the page slice is empty the handler answers 200 with
totalPages = 0 and totalVideos = 0 regardless of the true totals. -/
def getAllVideos (db : Db) (pageRaw limitRaw : Option Nat) (q : Option String)
    (f : VSortField) (asc : Bool) (ownerId : Option ObjId) : Outcome GAVResp :=
  let page := max 1 (pageRaw.getD 1)
  let limit := min (max 1 (limitRaw.getD 10)) 50
  let docs := gavDocs db q ownerId f asc page limit
  let total := (allVideosMatched db q ownerId).length
  if docs.isEmpty then
    .ok { statusCode := 200, videos := []
          pagination := { currentPage := page, totalPages := 0, totalVideos := 0 } }
  else
    .ok { statusCode := 200, videos := docs
          pagination := { currentPage := page, totalPages := ceilDivJs total limit
                          totalVideos := total } }

/-- Outcome of an express handler as the client sees it: a sent response, an
error handed to the global error middleware, or a handler that resolved
without ever sending a response, leaving the request hanging. -/
inductive HandlerOut (α : Type) where
  | sent (resp : α)
  | errored (e : JsError)
  | hung
deriving DecidableEq, Repr

/-- The channel profile view of getUserChannelProfile. -/
structure ChannelProfile where
  id : ObjId
  username : String
  subscriberCount : Nat
  channelsSubscribedToCount : Nat
  isSubscribed : Bool
deriving DecidableEq, Repr

/-- JavaScript String.prototype.trim, written over the character list so that
it evaluates by reduction. -/
def jsTrim (s : String) : String :=
  String.mk (((s.data.dropWhile Char.isWhitespace).reverse.dropWhile Char.isWhitespace).reverse)

/-- JavaScript String.prototype.toLowerCase over the character list. -/
def jsToLower (s : String) : String :=
  String.mk (s.data.map Char.toLower)

/-- getUserChannelProfile of user.controller.js.  A missing or blank username
throws a ValidationError (422).  The aggregation matches the stored username
against the trimmed, lowercased request value.  When no user matches, the
source does return ApiError.notFound(...) instead of throwing it: the handler
resolves with the error object as its value, no response is written, and the
request hangs. -/
def getUserChannelProfile (db : Db) (username : Option String)
    (viewer : Option ObjId) : HandlerOut ChannelProfile :=
  match username with
  | none => .errored (.api 422 "Username is required to fetch channel profile")
  | some raw =>
    if jsTrim raw = "" then
      .errored (.api 422 "Username is required to fetch channel profile")
    else
      match db.users.find? (fun u => u.username == jsToLower (jsTrim raw)) with
      | none => .hung
      | some u =>
          let subscriberCount := (db.subs.filter (fun s => s.channel == u.id)).length
          let subscribedToCount := (db.subs.filter (fun s => s.subscriber == u.id)).length
          let isSub : Bool :=
            match viewer with
            | some w => db.subs.any (fun s => s.channel == u.id && s.subscriber == w)
            | none => false
          .sent { id := u.id, username := u.username, subscriberCount := subscriberCount,
                  channelsSubscribedToCount := subscribedToCount, isSubscribed := isSub }

/-- User.findByIdAndUpdate on the refreshToken field. -/
def userUpdateToken (db : Db) (uid : ObjId) (t : Option Jwt) : Db :=
  let updated := db.users.map (fun u => if u.id == uid then { u with refreshToken := t } else u)
  { db with users := updated }

/-- generateAccessAndRefreshToken of user.controller.js.  The token factory
user.generateRefreshToken lives in user.models.js, which is not under src.
Modelled from the spec: it issues a brand-new refresh token (rotation-on-use)
carrying the user id, persisted on the user record; the freshly generated
token is passed in as a parameter. -/
def generateAccessAndRefreshToken (db : Db) (uid : ObjId) (fresh : Jwt) :
    Jwt × Db :=
  (fresh, userUpdateToken db uid (some fresh))

/-- refreshAccessToken of user.controller.js.  A missing token, a failed
jwt.verify, an unknown user id and a stored value different from the presented
token all collapse to the same AuthenticationError 401; on success the handler
rotates, persisting the brand-new refresh token. -/
def refreshAccessToken (db : Db) (presented : Option Jwt) (fresh : Jwt) :
    Outcome Jwt × Db :=
  match presented with
  | none => (.err (.api 401 "Refresh token is required"), db)
  | some t =>
    if !t.sigValid then (.err (.api 401 "Invalid or expired refresh token"), db)
    else
      match userFind db t.uid with
      | none => (.err (.api 401 "Invalid or expired refresh token"), db)
      | some u =>
        if u.refreshToken != some t then
          (.err (.api 401 "Invalid or expired refresh token"), db)
        else
          let rotated := generateAccessAndRefreshToken db t.uid fresh
          (.ok rotated.1, rotated.2)

/-- logoutUser of user.controller.js: unsets the stored refresh token. -/
def logoutUser (db : Db) (uid : ObjId) : Db :=
  userUpdateToken db uid none

/-- A request as the cache middleware sees it: method, originalUrl, parsed
query and the authenticated user if any. -/
structure CacheReq where
  method : String
  url : String
  query : List (String × String)
  user : Option ObjId
deriving DecidableEq, Repr

/-- JSON.stringify(req.query): a string determined by the query pairs. -/
def serializeQuery (q : List (String × String)) : String :=
  String.join (q.map (fun p => "(" ++ p.1 ++ ":" ++ p.2 ++ ")"))

/-- getCacheKey of the cache middleware: originalUrl plus the serialized
query, with no user identity. -/
def getCacheKey (req : CacheReq) : String :=
  req.url ++ serializeQuery req.query

/-- The cache store: key to cached response body. -/
abbrev Cache := List (String × String)

/-- cacheMiddleware of the cache middleware file: non-GET requests pass
through untouched; a GET with a cached key is answered 200 with the cached
body before the handler runs; otherwise the handler runs and its body is
stored only when the response status is exactly 200. -/
def cacheMiddleware (handler : CacheReq → Nat × String) (cache : Cache)
    (req : CacheReq) : (Nat × String) × Cache :=
  if req.method != "GET" then (handler req, cache)
  else
    match cache.lookup (getCacheKey req) with
    | some body => ((200, body), cache)
    | none =>
      let resp := handler req
      if resp.1 == 200 then (resp, (getCacheKey req, resp.2) :: cache)
      else (resp, cache)

/-- Projection of a getVideoComments outcome to its pagination object. -/
def gvcPagination : Outcome GVCResp → Option GVCPagination
  | .ok r => some r.pagination
  | .err _ => none

/-- Projection of a getVideoComments outcome to its comment list. -/
def gvcComments : Outcome GVCResp → List EComment
  | .ok r => r.comments
  | .err _ => []

theorem find_map_update (l : List UserDoc) (uid : ObjId) (t : Option Jwt) :
    (l.map (fun u => if u.id == uid then { u with refreshToken := t } else u)).find?
        (fun u => u.id == uid) =
      (l.find? (fun u => u.id == uid)).map (fun u => { u with refreshToken := t }) := by
  induction l with
  | nil => rfl
  | cons u rest ih =>
    simp only [List.map_cons]
    cases h : (u.id == uid) with
    | true =>
      rw [if_pos rfl]
      have hl : List.find? (fun x : UserDoc => x.id == uid)
          ({ u with refreshToken := t } ::
            List.map (fun u => if (u.id == uid) = true then { u with refreshToken := t } else u)
              rest) = some { u with refreshToken := t } :=
        List.find?_cons_of_pos _ h
      have hr : List.find? (fun x : UserDoc => x.id == uid) (u :: rest) = some u :=
        List.find?_cons_of_pos _ h
      rw [hl, hr]
      rfl
    | false =>
      rw [if_neg (by simp), List.find?_cons_of_neg _ (by simp [h]),
        List.find?_cons_of_neg _ (by simp [h])]
      exact ih

theorem userFind_userUpdateToken_self (db : Db) (uid : ObjId) (t : Option Jwt) :
    userFind (userUpdateToken db uid t) uid =
      (userFind db uid).map (fun u => { u with refreshToken := t }) := by
  simpa [userFind, userUpdateToken] using find_map_update db.users uid t

/-- C9: a subscription toggle where the actor and the channel coincide fails
before the try block with the self-subscription ApiError (badRequest 400, the
concrete form the InvalidOperation failure mode of the spec takes), and the
store is returned untouched: no subscription row is created or deleted. -/
theorem c9_self_subscription_always_rejected (db : Db) (uid : ObjId) (freshId : Nat) :
    toggleSubscription db db (some uid) (some uid) freshId =
      (.err (.api 400 "You cannot subscribe to your own channel"), db) := by
  simp [toggleSubscription]

/-- C2: the refresh operation succeeds only when the presented token equals
the refresh token currently stored on the referenced user record; after a
successful rotation that persists a brand-new (hence different) refresh
token, replaying the previous token fails with the Unauthenticated 401 error,
and after logout clears the stored value every token carrying that user id
fails the same way, regardless of signature validity. -/
theorem c2_refresh_matches_stored_and_revocation :
    (∀ (db : Db) (p : Option Jwt) (fresh r : Jwt) (db2 : Db),
        refreshAccessToken db p fresh = (.ok r, db2) →
        ∃ t u, p = some t ∧ userFind db t.uid = some u ∧ u.refreshToken = some t) ∧
    (∀ (db : Db) (t fresh r : Jwt) (db2 : Db) (fresh2 : Jwt),
        refreshAccessToken db (some t) fresh = (.ok r, db2) → fresh ≠ t →
        (refreshAccessToken db2 (some t) fresh2).1 =
          .err (.api 401 "Invalid or expired refresh token")) ∧
    (∀ (db : Db) (uid : ObjId) (t fresh2 : Jwt), t.uid = uid →
        (refreshAccessToken (logoutUser db uid) (some t) fresh2).1 =
          .err (.api 401 "Invalid or expired refresh token")) := by
  refine ⟨?_, ?_, ?_⟩
  · intro db p fresh r db2 h
    match p with
    | none => simp [refreshAccessToken] at h
    | some t =>
      cases hs : t.sigValid with
      | false => simp [refreshAccessToken, hs] at h
      | true =>
        match hu : userFind db t.uid with
        | none => simp [refreshAccessToken, hs, hu] at h
        | some u =>
          by_cases hm : u.refreshToken = some t
          · exact ⟨t, u, rfl, hu, hm⟩
          · simp [refreshAccessToken, hs, hu, hm] at h
  · intro db t fresh r db2 fresh2 h hne
    cases hs : t.sigValid with
    | false => simp [refreshAccessToken, hs] at h
    | true =>
      match hu : userFind db t.uid with
      | none => simp [refreshAccessToken, hs, hu] at h
      | some u =>
        by_cases hm : u.refreshToken = some t
        · simp only [refreshAccessToken, hs, hu, hm, generateAccessAndRefreshToken] at h
          simp only [Bool.not_true, bne_self_eq_false, Bool.false_eq_true, if_false,
            Prod.mk.injEq] at h
          have hdb2 : db2 = userUpdateToken db t.uid (some fresh) := h.2.symm
          have hfind : userFind db2 t.uid = some { u with refreshToken := some fresh } := by
            rw [hdb2, userFind_userUpdateToken_self, hu]; rfl
          have hneq : (some fresh : Option Jwt) ≠ some t := by
            simpa using hne
          simp [refreshAccessToken, hs, hfind, hneq]
        · simp [refreshAccessToken, hs, hu, hm] at h
  · intro db uid t fresh2 huid
    cases hs : t.sigValid with
    | false => simp [refreshAccessToken, hs]
    | true =>
      have hlog : userFind (logoutUser db uid) t.uid =
          (userFind db t.uid).map (fun u => { u with refreshToken := none }) := by
        rw [huid]; exact userFind_userUpdateToken_self db uid none
      match hu : userFind db t.uid with
      | none => simp [refreshAccessToken, hs, hlog, hu]
      | some u => simp [refreshAccessToken, hs, hlog, hu]

/-- Concrete store for the C2 witness: one user holding a stored refresh
token. -/
def tokC2 : Jwt := { uid := 7, nonce := 0, sigValid := true }

/-- Fresh token the C2 witness rotates to. -/
def freshC2 : Jwt := { uid := 7, nonce := 1, sigValid := true }

/-- User store for the C2 witness. -/
def dbC2 : Db :=
  { users := [{ id := 7, username := "carol", fullName := "Carol", refreshToken := some tokC2 }] }

/-- Witness for C2 at a concrete store: the rotation succeeds against the
matching stored token, replaying the stale token against the rotated store
fails 401, and any token for the user fails 401 after logout. -/
theorem c2_refresh_witness :
    (∃ t u, (some tokC2 : Option Jwt) = some t ∧ userFind dbC2 t.uid = some u ∧
        u.refreshToken = some t) ∧
    (refreshAccessToken (userUpdateToken dbC2 7 (some freshC2)) (some tokC2) freshC2).1 =
      .err (.api 401 "Invalid or expired refresh token") ∧
    (refreshAccessToken (logoutUser dbC2 7) (some tokC2) freshC2).1 =
      .err (.api 401 "Invalid or expired refresh token") := by
  refine ⟨?_, ?_, ?_⟩
  · exact c2_refresh_matches_stored_and_revocation.1 dbC2 (some tokC2) freshC2 freshC2
      (userUpdateToken dbC2 7 (some freshC2)) (by decide)
  · exact c2_refresh_matches_stored_and_revocation.2.1 dbC2 tokC2 freshC2 freshC2
      (userUpdateToken dbC2 7 (some freshC2)) freshC2 (by decide) (by decide)
  · exact c2_refresh_matches_stored_and_revocation.2.2 dbC2 7 tokC2 freshC2 (by decide)

/-- C10: the cache key is the URL plus the serialized query, with no user
identity, so when a GET request is answered 200, a second GET with the same
URL and query is served the identical cached body regardless of which user
issues either request; moreover the cache is never changed by a non-GET
request nor by a response whose status differs from 200. -/
theorem c10_cache_keyed_without_user :
    (∀ (handler : CacheReq → Nat × String) (cache : Cache) (r1 r2 : CacheReq),
        r1.method = "GET" → r2.method = "GET" → r1.url = r2.url → r1.query = r2.query →
        (cacheMiddleware handler cache r1).1.1 = 200 →
        (cacheMiddleware handler (cacheMiddleware handler cache r1).2 r2).1.2 =
          (cacheMiddleware handler cache r1).1.2) ∧
    (∀ (handler : CacheReq → Nat × String) (cache : Cache) (req : CacheReq),
        req.method ≠ "GET" → (cacheMiddleware handler cache req).2 = cache) ∧
    (∀ (handler : CacheReq → Nat × String) (cache : Cache) (req : CacheReq),
        (handler req).1 ≠ 200 → (cacheMiddleware handler cache req).2 = cache) := by
  refine ⟨?_, ?_, ?_⟩
  · intro handler cache r1 r2 h1 h2 hurl hq hstatus
    have hkey : getCacheKey r1 = getCacheKey r2 := by
      simp [getCacheKey, hurl, hq]
    have hm1 : (r1.method != "GET") = false := by simp [h1]
    have hm2 : (r2.method != "GET") = false := by simp [h2]
    match hc : cache.lookup (getCacheKey r1) with
    | some body =>
        simp [cacheMiddleware, hm1, hm2, hc, ← hkey]
    | none =>
        match hh : handler r1 with
        | (s, body) =>
          have hs : s = 200 := by
            have := hstatus
            simp [cacheMiddleware, hm1, hc, hh] at this
            by_contra hne
            rw [if_neg (by simpa using hne)] at this
            exact hne this
          subst hs
          simp [cacheMiddleware, hm1, hm2, hc, hh, ← hkey]
  · intro handler cache req hm
    simp [cacheMiddleware, bne_iff_ne, hm]
  · intro handler cache req hs
    by_cases hm : req.method = "GET"
    · match hc : cache.lookup (getCacheKey req) with
      | some body => simp [cacheMiddleware, hm, hc]
      | none =>
          match hh : handler req with
          | (s, body) =>
            have : (s == 200) = false := by
              simp only [hh] at hs
              simpa using hs
            simp [cacheMiddleware, hm, hc, hh, this]
    · simp [cacheMiddleware, bne_iff_ne, hm]

/-- Handler used by the C10 witness: a GET endpoint whose body depends on the
authenticated user, standing for a personalized view. -/
def handlerC10 (r : CacheReq) : Nat × String :=
  (200, "items-for-user-" ++ toString (r.user.getD 0))

/-- First request of the C10 witness, issued by user 1. -/
def reqC10a : CacheReq := { method := "GET", url := "/api/v1/videos", query := [], user := some 1 }

/-- Second request of the C10 witness: same URL and query, issued by user 2. -/
def reqC10b : CacheReq := { method := "GET", url := "/api/v1/videos", query := [], user := some 2 }

/-- Non-GET request of the C10 witness. -/
def reqC10post : CacheReq :=
  { method := "POST", url := "/api/v1/videos", query := [], user := some 1 }

/-- Witness for C10 at concrete requests: user 2 receives the body cached for
user 1, a POST leaves the cache untouched, and a non-200 handler result is not
stored. -/
theorem c10_cache_witness :
    (cacheMiddleware handlerC10 (cacheMiddleware handlerC10 [] reqC10a).2 reqC10b).1.2 =
      (cacheMiddleware handlerC10 [] reqC10a).1.2 ∧
    (cacheMiddleware handlerC10 [] reqC10post).2 = [] ∧
    (cacheMiddleware (fun _ => (404, "missing")) [] reqC10a).2 = [] := by
  refine ⟨?_, ?_, ?_⟩
  · exact c10_cache_keyed_without_user.1 handlerC10 [] reqC10a reqC10b
      (by decide) (by decide) (by decide) (by decide) (by decide)
  · exact c10_cache_keyed_without_user.2.1 handlerC10 [] reqC10post (by decide)
  · exact c10_cache_keyed_without_user.2.2 (fun _ => (404, "missing")) [] reqC10a (by decide)

theorem ceilDivJs_le_iff (total limit j : Nat) (h : 1 ≤ limit) :
    ceilDivJs total limit ≤ j ↔ total ≤ limit * j := by
  unfold ceilDivJs
  rw [← Nat.lt_succ_iff, Nat.div_lt_iff_lt_mul (by omega), Nat.succ_mul, Nat.mul_comm j limit]
  omega

theorem le_mul_ceilDivJs (total limit : Nat) (h : 1 ≤ limit) :
    total ≤ limit * ceilDivJs total limit :=
  (ceilDivJs_le_iff total limit (ceilDivJs total limit) h).mp le_rfl

theorem ceilDivJs_zero (limit : Nat) : ceilDivJs 0 limit = 0 := by
  unfold ceilDivJs
  match limit with
  | 0 => rfl
  | n + 1 =>
    have hn : (0 + (n + 1) - 1) = n := by omega
    rw [hn]
    exact Nat.div_eq_of_lt (by omega)

/-- User record backing the published test video. -/
def ownerEC : UserDoc := { id := 2, username := "bob", fullName := "Bob" }

/-- Published test video with no comments. -/
def videoEC : VideoDoc := { id := 10, owner := 2, isPublished := true }

/-- Store with a published video and no comments at all. -/
def dbEmptyComments : Db := { users := [ownerEC], videos := [videoEC] }

/-- C3 counterexample: requesting page 2 of the comments of a video with
total 0 returns pagination metadata with hasPrevPage = true, although the
claim requires both hasNextPage and hasPrevPage to be false whenever the
total is 0. -/
theorem c3_counterexample :
    (gvcPagination (getVideoComments dbEmptyComments 10 none 2 10 .newest)).map
        (fun p => (p.totalComments, p.hasNextPage, p.hasPrevPage)) =
      some (0, false, true) := by decide

/-- C3 amended: for every valid page and limit the pagination metadata the
code builds satisfies totalPages = ceil(total / limit) (stated through its
Galois characterisation), hasNextPage iff page < totalPages and hasPrevPage
iff page > 1; when total = 0, totalPages = 0 and hasNextPage is false but
hasPrevPage stays page > 1.  getVideoComments returns exactly this metadata
for the countDocuments total, while getUserChannelSubscribers never returns
metadata: for a valid channel id it always fails with the response-time
TypeError that the error middleware maps to 500. -/
theorem c3_amended :
    (∀ page limit total : Nat, 1 ≤ limit →
        ((∀ j, (mkPagination page limit total).totalPages ≤ j ↔ total ≤ limit * j) ∧
         ((mkPagination page limit total).hasNextPage = true ↔
            page < (mkPagination page limit total).totalPages) ∧
         ((mkPagination page limit total).hasPrevPage = true ↔ 1 < page) ∧
         (total = 0 → (mkPagination page limit total).totalPages = 0 ∧
            (mkPagination page limit total).hasNextPage = false))) ∧
    (∀ (db : Db) (vid : ObjId) (viewer : Option ObjId) (page limit : Nat) (k : SortKey)
        (v : VideoDoc), videoFind db vid = some v → v.isPublished = true →
        gvcPagination (getVideoComments db vid viewer page limit k) =
          some (mkPagination page limit (countVideoComments db vid))) ∧
    (∀ (db : Db) (cid : ObjId) (page limit : Nat),
        getUserChannelSubscribers db (some cid) page limit = .err subInternalCrash ∧
        errStatus subInternalCrash = 500) := by
  refine ⟨?_, ?_, ?_⟩
  · intro page limit total hl
    refine ⟨?_, ?_, ?_, ?_⟩
    · intro j
      simpa [mkPagination] using ceilDivJs_le_iff total limit j hl
    · simp [mkPagination]
    · simp [mkPagination]
    · intro h0
      subst h0
      simp [mkPagination, ceilDivJs_zero]
  · intro db vid viewer page limit k v hfind hpub
    simp [getVideoComments, hfind, hpub, gvcPagination]
  · intro db cid page limit
    exact ⟨rfl, rfl⟩

/-- Witness for the amended C3 at concrete inputs: the ceiling bound at
page 3, limit 2, total 5; the metadata getVideoComments actually returns for
the empty-comment store; and the unconditional 500 of
getUserChannelSubscribers. -/
theorem c3_amended_witness :
    ((mkPagination 3 2 5).totalPages ≤ 3 ↔ 5 ≤ 2 * 3) ∧
    gvcPagination (getVideoComments dbEmptyComments 10 none 2 10 .newest) =
      some (mkPagination 2 10 (countVideoComments dbEmptyComments 10)) ∧
    getUserChannelSubscribers dbEmptyComments (some 2) 1 20 = .err subInternalCrash := by
  refine ⟨(c3_amended.1 3 2 5 (by decide)).1 3, ?_, (c3_amended.2.2 dbEmptyComments 2 1 20).1⟩
  exact c3_amended.2.1 dbEmptyComments 10 none 2 10 .newest videoEC (by decide) (by decide)

theorem mem_sortComments {k : SortKey} {l : List EComment} {c : EComment}
    (h : c ∈ sortComments k l) : c ∈ l :=
  (List.perm_insertionSort _ l).subset h

theorem buildCommentAggregation_not_deleted (db : Db) (vid : ObjId)
    (viewer : Option ObjId) (k : SortKey) (skip limit : Nat) (e : EComment)
    (h : e ∈ buildCommentAggregation db vid viewer k skip limit) :
    e.comment.isDeleted = false := by
  unfold buildCommentAggregation at h
  have h1 := List.mem_of_mem_take h
  have h2 := List.mem_of_mem_drop h1
  have h3 := mem_sortComments h2
  obtain ⟨c, hc, he⟩ := List.mem_filterMap.mp h3
  obtain ⟨o, _, heq⟩ := Option.map_eq_some'.mp he
  have hcc : e.comment = c := by rw [← heq]; rfl
  have h4 := List.mem_filter.mp hc
  have h5 := (List.mem_filter.mp h4.1).2
  rw [hcc]
  revert h5
  cases c.isDeleted <;> simp

/-- Owner of the C4 test comment. -/
def userC4 : UserDoc := { id := 5, username := "eve", fullName := "Eve" }

/-- Published video the C4 test comment targets. -/
def videoC4 : VideoDoc := { id := 10, owner := 5, isPublished := true }

/-- A comment that is not soft-deleted but whose moderation status is
rejected. -/
def commentC4 : CommentDoc :=
  { id := 1, content := "bad", video := 10, owner := 5, isDeleted := false,
    moderationStatus := .rejected, createdAt := 100 }

/-- Store holding one rejected, not-deleted comment on a published video. -/
def dbC4 : Db := { users := [userC4], videos := [videoC4], comments := [commentC4] }

/-- C4 counterexample: getVideoComments returns the moderation-rejected
comment, because the controller pipeline filters on nothing but the video id
and the pre-aggregate hook only adds the isDeleted filter; the claim requires
non-approved comments never to appear. -/
theorem c4_counterexample :
    (gvcComments (getVideoComments dbC4 10 none 1 10 .newest)).map
        (fun e => (e.comment.id, e.comment.moderationStatus)) =
      [(1, ModStatus.rejected)] := by decide

/-- C4 amended: for every store, viewer, page, limit and sort key, no
soft-deleted comment ever appears in getVideoComments output (the
pre-aggregate hook guarantees it); comments whose moderation status is not
approved are not excluded and do appear, as the counterexample shows. -/
theorem c4_amended (db : Db) (vid : ObjId) (viewer : Option ObjId)
    (page limit : Nat) (k : SortKey) (e : EComment)
    (h : e ∈ gvcComments (getVideoComments db vid viewer page limit k)) :
    e.comment.isDeleted = false := by
  unfold getVideoComments at h
  split at h
  · simp [gvcComments] at h
  · split at h
    · simp [gvcComments] at h
    · simp only [gvcComments] at h
      exact buildCommentAggregation_not_deleted _ _ _ _ _ _ _ h

/-- The enriched form in which the C4 comment appears in the output. -/
def ecC4 : EComment :=
  { comment := commentC4, ownerName := "eve", likesCount := 0,
    isLikedByUser := false, isOwner := false }

/-- Witness for the amended C4: the rejected comment is a member of the
output and is indeed not soft-deleted. -/
theorem c4_amended_witness :
    ecC4 ∈ gvcComments (getVideoComments dbC4 10 none 1 10 .newest) ∧
    ecC4.comment.isDeleted = false :=
  ⟨by decide, c4_amended dbC4 10 none 1 10 .newest ecC4 (by decide)⟩

theorem take_drop_nil {α : Type} (l : List α) (n m : Nat) (h : l.length ≤ n) :
    (l.drop n).take m = [] := by
  rw [List.drop_eq_nil_of_le h]
  exact List.take_nil

theorem double_filter_length_le {α : Type} (l : List α) (p q : α → Bool) :
    ((l.filter p).filter q).length ≤ (l.filter q).length := by
  induction l with
  | nil => simp
  | cons a tl ih =>
    cases hp : p a <;> cases hq : q a <;>
      simp [List.filter_cons, hp, hq, -List.filter_filter] <;> omega

theorem hooked_length_le (db : Db) (vid : ObjId) (viewer : Option ObjId) (k : SortKey) :
    (sortComments k (List.filterMap
        (fun c => (userFind db c.owner).map (enrichComment db viewer c))
        ((db.comments.filter (fun c => !c.isDeleted)).filter (fun c => c.video == vid)))).length
      ≤ countVideoComments db vid := by
  unfold sortComments
  rw [(List.perm_insertionSort _ _).length_eq]
  have h1 := List.length_filterMap_le
    (fun c => (userFind db c.owner).map (enrichComment db viewer c))
    ((db.comments.filter (fun c => !c.isDeleted)).filter (fun c => c.video == vid))
  have h2 := double_filter_length_le db.comments (fun c => !c.isDeleted)
    (fun c => c.video == vid)
  exact le_trans h1 h2

theorem skip_covers_total (total page limit : Nat) (hl : 1 ≤ limit)
    (hp : ceilDivJs total limit < page) : total ≤ (page - 1) * limit := by
  have h2 := le_mul_ceilDivJs total limit hl
  have h3 : ceilDivJs total limit ≤ page - 1 := by omega
  have h4 : limit * ceilDivJs total limit ≤ limit * (page - 1) :=
    Nat.mul_le_mul_left _ h3
  have h5 : limit * (page - 1) = (page - 1) * limit := Nat.mul_comm _ _
  omega

theorem buildCommentAggregation_beyond_empty (db : Db) (vid : ObjId)
    (viewer : Option ObjId) (k : SortKey) (page limit : Nat) (hl : 1 ≤ limit)
    (hp : ceilDivJs (countVideoComments db vid) limit < page) :
    buildCommentAggregation db vid viewer k ((page - 1) * limit) limit = [] := by
  unfold buildCommentAggregation
  exact take_drop_nil _ _ _
    (le_trans (hooked_length_le db vid viewer k) (skip_covers_total _ _ _ hl hp))

theorem gavDocs_beyond_empty (db : Db) (q : Option String) (ownerId : Option ObjId)
    (f : VSortField) (asc : Bool) (page limit : Nat) (hl : 1 ≤ limit)
    (hp : ceilDivJs (allVideosMatched db q ownerId).length limit < page) :
    gavDocs db q ownerId f asc page limit = [] := by
  unfold gavDocs
  have hlen : ((allVideosMatched db q ownerId).insertionSort
      (fun a b => videoLeB f asc a b = true)).length =
      (allVideosMatched db q ownerId).length :=
    (List.perm_insertionSort _ _).length_eq
  exact take_drop_nil _ _ _
    (le_trans (le_of_eq hlen) (skip_covers_total _ _ _ hl hp))

/-- Owner of the C7 test videos. -/
def userC7 : UserDoc := { id := 2, username := "dan", fullName := "Dan" }

/-- Store with exactly two published videos. -/
def dbC7 : Db :=
  { users := [userC7]
    videos := [{ id := 11, owner := 2, isPublished := true, createdAt := 1 },
               { id := 12, owner := 2, isPublished := true, createdAt := 2 }] }

/-- C7 counterexample: page 5 at limit 1 over a store with 2 matching videos
(so the true totalPages is 2) makes getAllVideos answer success with an empty
list but with totalPages = 0 and totalVideos = 0, not the correct metadata for
the true total that the claim requires. -/
theorem c7_counterexample :
    getAllVideos dbC7 (some 5) (some 1) none .createdAt false none =
      .ok { statusCode := 200, videos := []
            pagination := { currentPage := 5, totalPages := 0, totalVideos := 0 } } ∧
    (allVideosMatched dbC7 none none).length = 2 ∧ ceilDivJs 2 1 = 2 := by
  refine ⟨?_, by decide, by decide⟩
  decide

/-- C7 amended: a page beyond the last one never yields an error.  In
getVideoComments it returns 200 with an empty list and metadata that is still
correct for the countDocuments total (hasNextPage false, hasPrevPage still
page > 1); in getAllVideos it returns 200 with an empty list, but the
pagination metadata is reset to totalPages = 0 and totalVideos = 0 instead of
the true totals. -/
theorem c7_amended :
    (∀ (db : Db) (vid : ObjId) (viewer : Option ObjId) (page limit : Nat) (k : SortKey)
        (v : VideoDoc), videoFind db vid = some v → v.isPublished = true →
        1 ≤ limit → ceilDivJs (countVideoComments db vid) limit < page →
        getVideoComments db vid viewer page limit k =
          .ok { statusCode := 200, comments := []
                pagination := mkPagination page limit (countVideoComments db vid) } ∧
        (mkPagination page limit (countVideoComments db vid)).hasNextPage = false) ∧
    (∀ (db : Db) (q : Option String) (ownerId : Option ObjId) (f : VSortField)
        (asc : Bool) (pageRaw limitRaw : Option Nat),
        ceilDivJs (allVideosMatched db q ownerId).length
            (min (max 1 (limitRaw.getD 10)) 50) < max 1 (pageRaw.getD 1) →
        getAllVideos db pageRaw limitRaw q f asc ownerId =
          .ok { statusCode := 200, videos := []
                pagination := { currentPage := max 1 (pageRaw.getD 1), totalPages := 0,
                                totalVideos := 0 } }) := by
  constructor
  · intro db vid viewer page limit k v hfind hpub hl hp
    constructor
    · simp [getVideoComments, hfind, hpub,
        buildCommentAggregation_beyond_empty db vid viewer k page limit hl hp]
    · have : ¬ (page < (mkPagination page limit (countVideoComments db vid)).totalPages) := by
        simp only [mkPagination]
        omega
      simpa [mkPagination] using this
  · intro db q ownerId f asc pageRaw limitRaw hp
    have hl : 1 ≤ min (max 1 (limitRaw.getD 10)) 50 := by
      have h1 : 1 ≤ max 1 (limitRaw.getD 10) := Nat.le_max_left _ _
      omega
    have hdocs := gavDocs_beyond_empty db q ownerId f asc
      (max 1 (pageRaw.getD 1)) (min (max 1 (limitRaw.getD 10)) 50) hl hp
    simp [getAllVideos, hdocs]

/-- Witness for the amended C7 at concrete inputs: page 5 of the one-comment
video list (0 comments, limit 10) and page 5 of the two-video store at
limit 1. -/
theorem c7_amended_witness :
    (getVideoComments dbEmptyComments 10 none 5 10 .newest =
      .ok { statusCode := 200, comments := []
            pagination := mkPagination 5 10 (countVideoComments dbEmptyComments 10) } ∧
     (mkPagination 5 10 (countVideoComments dbEmptyComments 10)).hasNextPage = false) ∧
    getAllVideos dbC7 (some 5) (some 1) none .createdAt false none =
      .ok { statusCode := 200, videos := []
            pagination := { currentPage := 5, totalPages := 0, totalVideos := 0 } } := by
  constructor
  · exact c7_amended.1 dbEmptyComments 10 none 5 10 .newest videoEC
      (by decide) (by decide) (by decide) (by decide)
  · have h := c7_amended.2 dbC7 none none .createdAt false (some 5) (some 1) (by decide)
    simpa using h

/-- Actor of the race scenarios. -/
def userC1 : UserDoc := { id := 1, username := "alice", fullName := "Alice" }

/-- Published video of the like-race scenario. -/
def videoC1 : VideoDoc := { id := 10, owner := 1, isPublished := true }

/-- Store as the like toggle read it: no like row yet. -/
def dbRaceFind : Db := { users := [userC1], videos := [videoC1] }

/-- The like row the concurrent request inserted after the read. -/
def raceLikeRow : LikeDoc := { id := 99, likedBy := 1, video := some 10 }

/-- Store at insert time: the row for the (actor, video) pair already
exists. -/
def dbRaceIns : Db := { dbRaceFind with likes := [raceLikeRow] }

/-- C1 counterexample: in the lost-race case the like toggle propagates the
duplicate-key failure of Like.create uncaught, and the global error
middleware turns it into a 500 internal server error; the claim requires the
operation to report isLiked = true and never surface a server error. -/
theorem c1_counterexample :
    toggleVideoLike dbRaceFind dbRaceIns 1 10 100 = (.err .dupKey, dbRaceIns) ∧
    errStatus .dupKey = 500 := by decide

/-- C1 amended: when the relation row already exists at insert time, neither
toggle creates a second row and neither reports the membership as already on.
The subscription toggle catches the duplicate-key error and rethrows it as a
409 Conflict (not an internal error), returning the store unchanged; the like
toggle does not catch it, so the duplicate-key failure surfaces as a 500
internal server error, also with the store unchanged. -/
theorem c1_amended :
    (∀ (dbFind dbIns : Db) (uid cid freshId : Nat), uid ≠ cid →
        (userFind dbFind cid).isSome = true → (userFind dbFind uid).isSome = true →
        subFindOne dbFind uid cid = none →
        (dbIns.subs.any (fun r => r.subscriber == uid && r.channel == cid)) = true →
        toggleSubscription dbFind dbIns (some cid) (some uid) freshId =
          (.err (.api 409 "Subscription operation in progress, please try again"), dbIns)) ∧
    (∀ (dbFind dbIns : Db) (uid vid freshId : Nat),
        verifyVideoResource dbFind vid = none → likeFindOne dbFind uid vid = none →
        (dbIns.likes.any (fun r => r.likedBy == uid && r.video == some vid)) = true →
        toggleVideoLike dbFind dbIns uid vid freshId = (.err .dupKey, dbIns) ∧
        errStatus .dupKey = 500) := by
  constructor
  · intro dbFind dbIns uid cid freshId hne hc hu hfind hdup
    have hcid : (cid == uid) = false := beq_eq_false_iff_ne.mpr (Ne.symm hne)
    obtain ⟨c, hcEq⟩ := Option.isSome_iff_exists.mp hc
    obtain ⟨u, huEq⟩ := Option.isSome_iff_exists.mp hu
    simp [toggleSubscription, hcid, hcEq, huEq, hfind, subCreate, hdup]
  · intro dbFind dbIns uid vid freshId hver hfind hdup
    refine ⟨?_, rfl⟩
    simp [toggleVideoLike, hver, hfind, likeCreate, hdup]

/-- Read-time store of the subscription race: users 1 and 2, no subscription
rows yet. -/
def dbSubRaceFind : Db := { users := [userC1, ownerEC] }

/-- Insert-time store of the subscription race: the concurrently created
(subscriber 1, channel 2) row is present. -/
def dbSubRaceIns : Db :=
  { dbSubRaceFind with subs := [{ id := 99, subscriber := 1, channel := 2 }] }

/-- Witness for the amended C1 at concrete stores: the subscription race
yields the 409 Conflict with the store unchanged, and the like race yields
the uncaught duplicate-key error mapped to 500, also unchanged. -/
theorem c1_amended_witness :
    toggleSubscription dbSubRaceFind dbSubRaceIns (some 2) (some 1) 100 =
      (.err (.api 409 "Subscription operation in progress, please try again"), dbSubRaceIns) ∧
    (toggleVideoLike dbRaceFind dbRaceIns 1 10 100 = (.err .dupKey, dbRaceIns) ∧
     errStatus .dupKey = 500) :=
  ⟨c1_amended.1 dbSubRaceFind dbSubRaceIns 1 2 100 (by decide) (by decide) (by decide)
      (by decide) (by decide),
   c1_amended.2 dbRaceFind dbRaceIns 1 10 100 (by decide) (by decide) (by decide)⟩

/-- Store of the sequential double-toggle scenario: actor 1, channel owner 2,
one published video, no relation rows. -/
def dbC5 : Db :=
  { users := [userC1, ownerEC]
    videos := [{ id := 10, owner := 2, isPublished := true }] }

/-- Store after the first like toggle. -/
def dbC5L1 : Db := { dbC5 with likes := [{ id := 100, likedBy := 1, video := some 10 }] }

/-- Store after the first subscription toggle. -/
def dbC5S1 : Db := { dbC5 with subs := [{ id := 100, subscriber := 1, channel := 2 }] }

/-- C5 evaluated at the failing input: the like double-toggle behaves exactly
as claimed (201 isLiked = true creating one row, then 200 isLiked = false
returning the pair count to 0), and the subscription double-toggle also
creates then deletes exactly one row returning the count to baseline, but
both subscription calls answer the 500 response-time TypeError instead of
reporting the on/off action. -/
theorem c5_double_toggle_eval :
    (toggleVideoLike dbC5 dbC5 1 10 100 =
        (.ok { statusCode := 201, isLiked := true, videoId := 10 }, dbC5L1) ∧
     countVideoLikesPair dbC5L1 1 10 = 1 ∧
     toggleVideoLike dbC5L1 dbC5L1 1 10 101 =
        (.ok { statusCode := 200, isLiked := false, videoId := 10 }, dbC5) ∧
     countVideoLikesPair dbC5 1 10 = 0) ∧
    (toggleSubscription dbC5 dbC5 (some 2) (some 1) 100 = (.err subInternalCrash, dbC5S1) ∧
     countSubsPair dbC5S1 1 2 = 1 ∧
     toggleSubscription dbC5S1 dbC5S1 (some 2) (some 1) 101 = (.err subInternalCrash, dbC5) ∧
     countSubsPair dbC5 1 2 = 0 ∧
     errStatus subInternalCrash = 500) := by decide

/-- C6 evaluated at the failing input: an authenticated toggle on an existing
foreign channel does create the subscription row, but the handler never
completes with 200 and an action field; calling the nonexistent
ApiResponse.success ends in the 500 the error middleware produces. -/
theorem c6_toggle_subscription_never_200 :
    toggleSubscription dbC5 dbC5 (some 2) (some 1) 100 = (.err subInternalCrash, dbC5S1) ∧
    (toggleSubscription dbC5 dbC5 (some 2) (some 1) 100).1.httpStatus
        (fun r => r.statusCode) = 500 := by decide

/-- Store of the C8 scenario: no user is named ghost. -/
def dbC8 : Db := { users := [{ id := 1, username := "alice", fullName := "Alice" }] }

/-- C8 evaluated at the failing input: requesting the channel profile of a
username that matches no user makes the handler return the NotFound ApiError
as a plain value instead of throwing it, so no response is sent and the
request hangs; the claim requires a 404 error response. -/
theorem c8_profile_not_found_hangs :
    getUserChannelProfile dbC8 (some "ghost") none = .hung ∧
    (dbC8.users.find? (fun u => u.username == "ghost")).isNone = true := by decide

end DevTube
